import Mathlib

/-!
Shallow embedding of the disk-preparation state machine of the LGLI
installer (`src/disk.c`, with `state.c` defaults and the helpers of
`system_utils.c`).

Modelling conventions:
* C strings (fixed-size `char` buffers) are Lean `String`s; `snprintf`
  truncation at buffer capacity is not modelled (device paths and labels
  are far below the buffer sizes involved).
* `long` / `int` values are Lean `Int`.  The `double` arithmetic in
  `apply_partitioning` (`consumed_mb`, `root_end`) only ever holds integral
  values, which IEEE doubles represent exactly in the realistic range, so
  it is embedded as exact `Int` arithmetic.
* Calls to the outside world (`run_command`, `ui_*`, `mkstemp`, `mount`,
  `ensure_directory`, `is_path_mounted`, ...) are resolved against a
  `World` oracle that fixes each call's outcome, and every externally
  visible action is recorded in an `Event` trace in program order.
-/

namespace LGLI

/-- `BootMode` from `state.h`. -/
inductive BootMode where
  | legacy
  | uefi
  deriving DecidableEq, Repr

/-- `FilesystemType` from `state.h`. -/
inductive FilesystemType where
  | ext4
  | xfs
  | btrfs
  deriving DecidableEq, Repr

instance : BEq BootMode := ⟨fun a b => decide (a = b)⟩

/-- The GPT/MBR type identifiers and labels defined at the top of `disk.c`. -/
def GPT_TYPE_EFI : String := "C12A7328-F81F-11D2-BA4B-00A0C93EC93B"

def GPT_TYPE_LINUX : String := "0FC63DAF-8483-4772-8E79-3D69D8477DE4"

def GPT_TYPE_SWAP : String := "0657FD6D-A4AB-43C4-84E5-0933C84B4F4F"

def GPT_TYPE_LVM : String := "E6D6D379-F507-44C2-A23C-238F2A3DF928"

def MBR_TYPE_LINUX : String := "83"

def MBR_TYPE_SWAP : String := "82"

def MBR_TYPE_LVM : String := "8e"

def LABEL_BOOT : String := "LIBERO_BOOT"

def LABEL_EFI : String := "LIBERO_EFI"

def LABEL_ROOT : String := "LIBERO_ROOT"

def LABEL_SWAP : String := "LIBERO_SWAP"

/-- `PartitionSpec` from `disk.c`.  `gpt_type` / `mbr_type` are `Option`
because the C code stores possibly-NULL `const char *` pointers there. -/
structure PartitionSpec where
  role : String
  label : String
  gpt_type : Option String
  mbr_type : Option String
  part_number : Int
  size_spec : String
  device : String
  deriving DecidableEq, Repr

def MAX_PARTITION_SPECS : Nat := 8

/-- `plan_add_partition` from `disk.c`: appends a spec to the plan, failing
when the fixed-capacity plan array is full. -/
def plan_add_partition (plan : List PartitionSpec) (number : Int)
    (role size_spec label : String) (gpt_type mbr_type : Option String) :
    Option (List PartitionSpec) :=
  if MAX_PARTITION_SPECS ≤ plan.length then
    none
  else
    some (plan ++ [{ role := role, label := label, gpt_type := gpt_type,
                     mbr_type := mbr_type, part_number := number,
                     size_spec := size_spec, device := "" }])

/-- The partition-plan construction phase of `apply_partitioning`
(`disk.c` lines 699–755): overhead computation, the insufficient-space
check, and the emission of the specs with sequential numbering.
Returns `none` exactly on the failure paths of that region. -/
def buildPlan (boot_mode : BootMode) (use_lvm : Bool)
    (swap_size_mb disk_size_mb : Int) : Option (List PartitionSpec) :=
  let use_gpt : Bool := boot_mode == BootMode.uefi
  let create_swap_partition : Bool := !use_lvm && decide (0 < swap_size_mb)
  let consumed_mb : Int :=
    1 + (if use_gpt then 512 else 0) + 512 +
      (if create_swap_partition then swap_size_mb else 0)
  let root_end : Int := disk_size_mb - 8
  if root_end ≤ consumed_mb + 128 then
    none
  else
    (if use_gpt then
        (plan_add_partition [] 1 "efi" "+512M" LABEL_EFI
            (some GPT_TYPE_EFI) none).bind fun p =>
          (plan_add_partition p 2 "boot" "+512M" LABEL_BOOT
              (some GPT_TYPE_LINUX) (some MBR_TYPE_LINUX)).map fun p2 =>
            (p2, (3 : Int))
      else
        some ([], (1 : Int))).bind fun pn =>
      (if create_swap_partition then
          (plan_add_partition pn.1 pn.2 "swap"
              ("+" ++ toString swap_size_mb ++ "M") LABEL_SWAP
              (some GPT_TYPE_SWAP) (some MBR_TYPE_SWAP)).map fun p =>
            (p, pn.2 + 1)
        else
          some pn).bind fun pn2 =>
        plan_add_partition pn2.1 pn2.2 "root" "-8M" LABEL_ROOT
          (some (if use_lvm then GPT_TYPE_LVM else GPT_TYPE_LINUX))
          (some (if use_lvm then MBR_TYPE_LVM else MBR_TYPE_LINUX))

/-- The fields of `InstallerState` (`state.h`) that the disk-preparation
state machine reads or writes. -/
structure InstallerState where
  boot_mode : BootMode
  root_fs : FilesystemType
  use_luks : Bool
  use_lvm : Bool
  disk_prepared : Bool
  install_root : String
  target_disk : String
  disk_size_mb : Int
  swap_size_mb : Int
  boot_partition : String
  efi_partition : String
  root_partition : String
  swap_partition : String
  root_mapper : String
  swap_mapper : String
  vg_name : String
  luks_name : String
  deriving DecidableEq, Repr

/-- Externally visible actions of the disk code, recorded in program order. -/
inductive Event where
  | uiMessage (title : String)
  | uiConfirm (title : String)
  | deactivateDisk (disk : String)
  | runCmd (cmd : String)
  | createKeyFile (path : String)
  | writeKeyFile (path : String)
  | unlinkKeyFile (path : String)
  | zeroBuffer (name : String)
  | createScript (path : String)
  | unlinkScript (path : String)
  | ensureDir (path : String)
  | mountFs (device : String) (mountpoint : String)
  | migrateCache
  deriving DecidableEq, Repr

/-- Oracle fixing the outcome of every call the disk code makes to the
outside world (UI prompts, `run_command` exit statuses, `mkstemp`,
`mount`, directory creation, mount-table probes). -/
structure World where
  disk_size_probe : Int
  confirm_partition : Bool
  deactivate_ok : Bool
  cmd_ok : String → Bool
  script_ok : Bool
  script_path : String
  pass1 : Option String
  pass2 : Option String
  keyfile_ok : Bool
  keyfile_path : String
  write_ok : Bool
  swap_input : Option String
  ensure_dir_ok : String → Bool
  mounted_already : Bool
  mount_ok : String → String → Bool
  cache_ok : Bool

/-- Result of one workflow step: the C return code (0 success, -1 failure),
the updated installer state, and the trace of external actions. -/
structure StepResult where
  rc : Int
  state : InstallerState
  events : List Event
  deriving Repr

/-! ### `system_utils.c` helpers used by the disk code -/

/-- `mount_fs` from `system_utils.c`: creates the mountpoint directory,
then mounts the device on it. -/
def mount_fs (w : World) (device mountpoint : String) : Int × List Event :=
  if !w.ensure_dir_ok mountpoint then
    (-1, [.ensureDir mountpoint])
  else if w.mount_ok device mountpoint then
    (0, [.ensureDir mountpoint, .mountFs device mountpoint])
  else
    (-1, [.ensureDir mountpoint, .mountFs device mountpoint])

/-- Width of the C `long` used for `strtol` clamping.  The properties
proved below do not depend on this width. -/
def LONG_MAX : Int := 2 ^ 63 - 1

def LONG_MIN : Int := -(2 ^ 63)

/-- Accumulate a decimal value over the maximal leading digit run. -/
def parseDecimal (acc : Int) : List Char → Int
  | [] => acc
  | c :: cs =>
      if c.isDigit then parseDecimal (acc * 10 + ((c.toNat : Int) - 48)) cs
      else acc

def isSpaceChar (c : Char) : Bool :=
  c = ' ' || c = '\t' || c = '\n' || c = '\r' || c = '\x0b' || c = '\x0c'

/-- C `strtol(s, NULL, 10)`: skip leading whitespace, optional sign,
maximal digit run, result clamped to the `long` range. -/
def strtol (s : String) : Int :=
  let cs := s.data.dropWhile isSpaceChar
  let signedMag : Int :=
    match cs with
    | '-' :: rest => -(parseDecimal 0 rest)
    | '+' :: rest => parseDecimal 0 rest
    | _ => parseDecimal 0 cs
  max LONG_MIN (min LONG_MAX signedMag)

/-! ### Configuration and formatting steps from `disk.c` -/

/-- `configure_swap` from `disk.c`: prompt for a size in MB, parse it with
`strtol`, clamp negative values to zero.  `w.swap_input = none` models a
cancelled prompt. -/
def configure_swap (st : InstallerState) (w : World) : StepResult :=
  match w.swap_input with
  | none => ⟨-1, st, []⟩
  | some s =>
      let value := strtol s
      let value := if value < 0 then 0 else value
      ⟨0, { st with swap_size_mb := value }, []⟩

/-- `format_partition` from `disk.c`: format a boot/efi/swap partition
(and activate swap). -/
def format_partition (w : World) (device ptype label : String) :
    Int × List Event :=
  let fs_label := if label ≠ "" then label else "LIBERO"
  if ptype = "boot" then
    let c := "mkfs.ext2 -F -L " ++ fs_label ++ " " ++ device
    (if w.cmd_ok c then 0 else -1, [.runCmd c])
  else if ptype = "efi" then
    let c := "mkfs.vfat -F32 -n " ++ fs_label ++ " " ++ device
    (if w.cmd_ok c then 0 else -1, [.runCmd c])
  else if ptype = "swap" then
    let c1 := "mkswap -L " ++ fs_label ++ " " ++ device
    if !w.cmd_ok c1 then (-1, [.runCmd c1])
    else
      let c2 := "swapon " ++ device
      (if w.cmd_ok c2 then 0 else -1, [.runCmd c1, .runCmd c2])
  else
    (-1, [])

/-- `format_root` from `disk.c`: format the resolved root device (the
mapper path when set, else the raw root partition) with the chosen
filesystem. -/
def format_root (st : InstallerState) (w : World) (label : String) :
    Int × List Event :=
  let device := if st.root_mapper ≠ "" then st.root_mapper else st.root_partition
  let fs_label := if label ≠ "" then label else LABEL_ROOT
  match st.root_fs with
  | .ext4 =>
      let c := "mkfs.ext4 -F -L " ++ fs_label ++ " " ++ device
      (if w.cmd_ok c then 0 else -1, [.runCmd c])
  | .xfs =>
      let c := "mkfs.xfs -f -L " ++ fs_label ++ " " ++ device
      (if w.cmd_ok c then 0 else -1, [.runCmd c])
  | .btrfs =>
      let c := "mkfs.btrfs -f -L " ++ fs_label ++ " " ++ device
      (if w.cmd_ok c then 0 else -1, [.runCmd c])

/-! ### Encryption and LVM layering from `disk.c` -/

/-- `prompt_passphrase` from `disk.c`: two masked prompts; entries must
match.  Returns the passphrase on success.  The `pass1`/`pass2` stack
buffers are `memset` to zero only on the success path. -/
def prompt_passphrase (w : World) : Int × Option String × List Event :=
  match w.pass1 with
  | none => (-1, none, [])
  | some p1 =>
      match w.pass2 with
      | none => (-1, none, [])
      | some p2 =>
          if p1 ≠ p2 then
            (-1, none, [.uiMessage "Passphrase Mismatch"])
          else
            (0, some p1, [.zeroBuffer "pass1", .zeroBuffer "pass2"])

/-- `handle_encryption` from `disk.c`: pass-through when LUKS is disabled;
otherwise prompt, write the passphrase to a temp key file, `luksFormat`
and `open` with it, and delete the key file. -/
def handle_encryption (st : InstallerState) (w : World) : StepResult :=
  if !st.use_luks then
    ⟨0, { st with root_mapper := st.root_partition }, []⟩
  else
    match prompt_passphrase w with
    | (rc, _, ev) =>
        if rc ≠ 0 then ⟨-1, st, ev⟩
        else if !w.keyfile_ok then
          ⟨-1, st, ev ++ [.uiMessage "Encryption"]⟩
        else
          let ev := ev ++ [Event.createKeyFile w.keyfile_path]
          if !w.write_ok then
            ⟨-1, st, ev ++ [.uiMessage "Encryption",
                            .unlinkKeyFile w.keyfile_path, .zeroBuffer "pass"]⟩
          else
            let ev := ev ++ [Event.writeKeyFile w.keyfile_path,
                             Event.zeroBuffer "pass"]
            let cFormat := "cryptsetup luksFormat --type luks1 --batch-mode --key-file "
              ++ w.keyfile_path ++ " " ++ st.root_partition
            if !w.cmd_ok cFormat then
              ⟨-1, st, ev ++ [.runCmd cFormat, .unlinkKeyFile w.keyfile_path]⟩
            else
              let cOpen := "cryptsetup open --key-file " ++ w.keyfile_path
                ++ " " ++ st.root_partition ++ " " ++ st.luks_name
              if !w.cmd_ok cOpen then
                ⟨-1, st, ev ++ [.runCmd cFormat, .runCmd cOpen,
                                .unlinkKeyFile w.keyfile_path]⟩
              else
                ⟨0, { st with root_mapper := "/dev/mapper/" ++ st.luks_name },
                  ev ++ [.runCmd cFormat, .runCmd cOpen,
                         .unlinkKeyFile w.keyfile_path]⟩

/-- `handle_lvm` from `disk.c`: pass-through when LVM is disabled;
otherwise `pvcreate`/`vgcreate` on the upstream device, an optional
fixed-size swap LV, then a root LV taking 100% of the free space. -/
def handle_lvm (st : InstallerState) (w : World) : StepResult :=
  if !st.use_lvm then
    ⟨0, { st with root_mapper :=
            if st.root_mapper ≠ "" then st.root_mapper else st.root_partition },
      []⟩
  else
    let pv := if st.root_mapper ≠ "" then st.root_mapper else st.root_partition
    let cPv := "pvcreate " ++ pv
    if !w.cmd_ok cPv then ⟨-1, st, [.runCmd cPv]⟩
    else
      let cVg := "vgcreate " ++ st.vg_name ++ " " ++ pv
      if !w.cmd_ok cVg then ⟨-1, st, [.runCmd cPv, .runCmd cVg]⟩
      else
        let cRoot := "lvcreate -n root -l 100%FREE " ++ st.vg_name
        if 0 < st.swap_size_mb then
          let cSwap := "lvcreate -n swap -L " ++ toString st.swap_size_mb
            ++ "M " ++ st.vg_name
          if !w.cmd_ok cSwap then
            ⟨-1, st, [.runCmd cPv, .runCmd cVg, .runCmd cSwap]⟩
          else
            let st := { st with swap_mapper := "/dev/" ++ st.vg_name ++ "/swap" }
            if !w.cmd_ok cRoot then
              ⟨-1, st, [.runCmd cPv, .runCmd cVg, .runCmd cSwap, .runCmd cRoot]⟩
            else
              ⟨0, { st with root_mapper := "/dev/" ++ st.vg_name ++ "/root" },
                [.runCmd cPv, .runCmd cVg, .runCmd cSwap, .runCmd cRoot]⟩
        else
          let st := { st with swap_mapper := "" }
          if !w.cmd_ok cRoot then
            ⟨-1, st, [.runCmd cPv, .runCmd cVg, .runCmd cRoot]⟩
          else
            ⟨0, { st with root_mapper := "/dev/" ++ st.vg_name ++ "/root" },
              [.runCmd cPv, .runCmd cVg, .runCmd cRoot]⟩

/-! ### `apply_partitioning` from `disk.c` -/

/-- Partition device path resolution (`disk.c` lines 791–799): append the
partition number, with a `p` separator when the disk name ends in a digit
(NVMe-style naming). -/
def partition_device (disk : String) (number : Int) : String :=
  let suffix := if disk.back.isDigit then "p" else ""
  disk ++ suffix ++ toString number

/-- Recording a resolved partition path into the installer state by role
(`disk.c` lines 800–808). -/
def record_partition (disk : String) (st : InstallerState)
    (spec : PartitionSpec) : InstallerState :=
  let dev := partition_device disk spec.part_number
  if spec.role = "efi" then { st with efi_partition := dev }
  else if spec.role = "boot" then { st with boot_partition := dev }
  else if spec.role = "swap" then { st with swap_partition := dev }
  else if spec.role = "root" then { st with root_partition := dev }
  else st

/-- The `sfdisk --part-type` loop of `apply_partitioning` (`disk.c` lines
811–820): set each spec's type identifier, GPT or MBR according to boot
mode, aborting on the first failure. -/
def set_partition_types (w : World) (disk : String) (use_gpt : Bool) :
    List PartitionSpec → Int × List Event
  | [] => (0, [])
  | spec :: rest =>
      match (if use_gpt then spec.gpt_type else spec.mbr_type) with
      | none => set_partition_types w disk use_gpt rest
      | some ty =>
          if ty = "" then set_partition_types w disk use_gpt rest
          else
            let c := "sfdisk --part-type " ++ disk ++ " "
              ++ toString spec.part_number ++ " " ++ ty
            if !w.cmd_ok c then (-1, [.runCmd c])
            else
              let tail := set_partition_types w disk use_gpt rest
              (tail.1, .runCmd c :: tail.2)

/-- The swap set-up tail of `apply_partitioning` (`disk.c` lines 847–865):
format and activate the swap partition (no LVM) or the swap logical
volume (LVM), then reset the `disk_prepared` readiness flag. -/
def setup_swap (st : InstallerState) (w : World) (ev1 : List Event) : StepResult :=
  if !st.use_lvm && st.swap_partition ≠ "" && decide (0 < st.swap_size_mb) then
    let swapStep := format_partition w st.swap_partition "swap" LABEL_SWAP
    if swapStep.1 ≠ 0 then ⟨-1, st, ev1 ++ swapStep.2⟩
    else
      ⟨0, { st with swap_mapper := st.swap_partition, disk_prepared := false },
        ev1 ++ swapStep.2 ++ [.uiMessage "Partitioning Complete"]⟩
  else if st.use_lvm && st.swap_mapper ≠ "" then
    let cMk := "mkswap -L " ++ LABEL_SWAP ++ " " ++ st.swap_mapper
    if !w.cmd_ok cMk then ⟨-1, st, ev1 ++ [.runCmd cMk]⟩
    else
      let cOn := "swapon " ++ st.swap_mapper
      if !w.cmd_ok cOn then ⟨-1, st, ev1 ++ [.runCmd cMk, .runCmd cOn]⟩
      else
        ⟨0, { st with disk_prepared := false },
          ev1 ++ [.runCmd cMk, .runCmd cOn, .uiMessage "Partitioning Complete"]⟩
  else
    ⟨0, { st with disk_prepared := false },
      ev1 ++ [.uiMessage "Partitioning Complete"]⟩

/-- The formatting tail of `apply_partitioning` (`disk.c` lines 826–865):
format boot and EFI partitions when recorded, run the encryption and LVM
layers, format the root device, then `setup_swap`. -/
def format_stage (st : InstallerState) (w : World) : StepResult :=
  let bootStep : Int × List Event :=
    if st.boot_partition ≠ "" then
      format_partition w st.boot_partition "boot" LABEL_BOOT
    else (0, [])
  if bootStep.1 ≠ 0 then ⟨-1, st, bootStep.2⟩
  else
    let efiStep : Int × List Event :=
      if st.efi_partition ≠ "" then
        format_partition w st.efi_partition "efi" LABEL_EFI
      else (0, [])
    if efiStep.1 ≠ 0 then ⟨-1, st, bootStep.2 ++ efiStep.2⟩
    else
      let enc := handle_encryption st w
      if enc.rc ≠ 0 then ⟨-1, enc.state, bootStep.2 ++ efiStep.2 ++ enc.events⟩
      else
        let lvm := handle_lvm enc.state w
        let ev0 := bootStep.2 ++ efiStep.2 ++ enc.events ++ lvm.events
        if lvm.rc ≠ 0 then ⟨-1, lvm.state, ev0⟩
        else
          let rootStep := format_root lvm.state w LABEL_ROOT
          let ev1 := ev0 ++ rootStep.2
          if rootStep.1 ≠ 0 then ⟨-1, lvm.state, ev1⟩
          else setup_swap lvm.state w ev1

/-- The apply phase of `apply_partitioning` (`disk.c` lines 757–865),
entered once a plan has been built: summary display, fdisk script,
partition-path resolution, type setting, `partprobe`, then
`format_stage`. -/
def run_partition_plan (st : InstallerState) (w : World)
    (plan : List PartitionSpec) : StepResult :=
  let ev0 := [Event.uiMessage "Partition Layout"]
  if !w.script_ok then
    ⟨-1, st, ev0 ++ [.uiMessage "Partitioning"]⟩
  else
    let ev1 := ev0 ++ [Event.createScript w.script_path]
    let cFdisk := "/usr/sbin/fdisk " ++ st.target_disk ++ " < " ++ w.script_path
    if !w.cmd_ok cFdisk then
      ⟨-1, st, ev1 ++ [.runCmd cFdisk, .unlinkScript w.script_path,
                       .uiMessage "Partitioning"]⟩
    else
      let ev2 := ev1 ++ [Event.runCmd cFdisk, Event.unlinkScript w.script_path]
      let st := plan.foldl (record_partition st.target_disk) st
      let use_gpt := st.boot_mode == BootMode.uefi
      let types := set_partition_types w st.target_disk use_gpt plan
      if types.1 ≠ 0 then
        ⟨-1, st, ev2 ++ types.2 ++ [.uiMessage "Partitioning"]⟩
      else
        let ev3 := ev2 ++ types.2
        let cProbe := "partprobe " ++ st.target_disk
        if !w.cmd_ok cProbe then ⟨-1, st, ev3 ++ [.runCmd cProbe]⟩
        else
          let fin := format_stage st w
          ⟨fin.rc, fin.state, ev3 ++ [Event.runCmd cProbe] ++ fin.events⟩

/-- The disk-size resolution at the top of `apply_partitioning` (`disk.c`
lines 677–684): when no size is recorded, probe the device, failing on a
non-positive probe. -/
def resolve_disk_size (st : InstallerState) (w : World) : Option InstallerState :=
  if st.disk_size_mb ≤ 0 then
    if w.disk_size_probe ≤ 0 then none
    else some { st with disk_size_mb := w.disk_size_probe }
  else some st

/-- `apply_partitioning` from `disk.c`: precondition checks, confirmation,
disk release, `wipefs`, plan construction (`buildPlan`, including the
state-field clearing of its else-branches), then `run_partition_plan`. -/
def apply_partitioning (st : InstallerState) (w : World) : StepResult :=
  if st.target_disk = "" then ⟨-1, st, [.uiMessage "Disk"]⟩
  else
    match resolve_disk_size st w with
    | none => ⟨-1, st, [.uiMessage "Disk"]⟩
    | some st =>
        if !w.confirm_partition then
          ⟨-1, st, [.uiConfirm "Partition Disk"]⟩
        else if !w.deactivate_ok then
          ⟨-1, st, [.uiConfirm "Partition Disk", .deactivateDisk st.target_disk,
                    .uiMessage "Disk"]⟩
        else
          let ev0 := [Event.uiConfirm "Partition Disk",
                      Event.deactivateDisk st.target_disk]
          let cWipe := "/usr/sbin/wipefs -a " ++ st.target_disk
          if !w.cmd_ok cWipe then ⟨-1, st, ev0 ++ [.runCmd cWipe]⟩
          else
            let ev1 := ev0 ++ [Event.runCmd cWipe]
            match buildPlan st.boot_mode st.use_lvm st.swap_size_mb st.disk_size_mb with
            | none => ⟨-1, st, ev1 ++ [.uiMessage "Partitioning"]⟩
            | some plan =>
                let use_gpt := st.boot_mode == BootMode.uefi
                let create_swap := !st.use_lvm && decide (0 < st.swap_size_mb)
                let st := if use_gpt then st
                  else { st with efi_partition := "", boot_partition := "" }
                let st := if create_swap then st
                  else { st with swap_partition := "" }
                let rest := run_partition_plan st w plan
                ⟨rest.rc, rest.state, ev1 ++ rest.events⟩

/-- `disk_mount_targets` from `disk.c`: precondition checks, install-root
directory creation, already-mounted short-circuit, root mount, readiness
flag, best-effort cache migration. -/
def disk_mount_targets (st : InstallerState) (w : World) : StepResult :=
  if st.target_disk = "" then ⟨-1, st, [.uiMessage "Mount"]⟩
  else if st.root_partition = "" then ⟨-1, st, [.uiMessage "Mount"]⟩
  else
    let root_device :=
      if st.root_mapper ≠ "" then st.root_mapper else st.root_partition
    if !w.ensure_dir_ok st.install_root then
      ⟨-1, st, [.ensureDir st.install_root, .uiMessage "Mount"]⟩
    else
      let ev0 := [Event.ensureDir st.install_root]
      if w.mounted_already then
        ⟨0, { st with disk_prepared := true }, ev0 ++ [.uiMessage "Mount"]⟩
      else
        let m := mount_fs w root_device st.install_root
        if m.1 ≠ 0 then
          ⟨-1, st, ev0 ++ m.2 ++ [.uiMessage "Mount"]⟩
        else
          let st := { st with disk_prepared := true }
          let evC := if w.cache_ok then [Event.migrateCache] else []
          ⟨0, st, ev0 ++ m.2 ++ evC ++ [.uiMessage "Mount"]⟩

/-! ### Concrete fixtures used by witnesses and counterexamples -/

/-- A fully populated post-partitioning installer state (UEFI, no LUKS,
no LVM), matching the paths `apply_partitioning` records for `/dev/sda`. -/
def stMount : InstallerState :=
  { boot_mode := .uefi, root_fs := .ext4, use_luks := false, use_lvm := false,
    disk_prepared := false, install_root := "/mnt/gentoo",
    target_disk := "/dev/sda", disk_size_mb := 20000, swap_size_mb := 2048,
    boot_partition := "/dev/sda2", efi_partition := "/dev/sda1",
    root_partition := "/dev/sda4", swap_partition := "/dev/sda3",
    root_mapper := "/dev/sda4", swap_mapper := "/dev/sda3",
    vg_name := "vg_libero", luks_name := "cryptroot" }

/-- A fresh pre-partitioning state for the same disk. -/
def stFresh : InstallerState :=
  { stMount with boot_partition := "", efi_partition := "",
                 root_partition := "", swap_partition := "",
                 root_mapper := "", swap_mapper := "" }

/-- An oracle in which every external call succeeds and the user
confirms every prompt with matching passphrases. -/
def wAllOk : World :=
  { disk_size_probe := 20000, confirm_partition := true, deactivate_ok := true,
    cmd_ok := fun _ => true, script_ok := true,
    script_path := "/tmp/libero-fdisk123456",
    pass1 := some "hunter2", pass2 := some "hunter2", keyfile_ok := true,
    keyfile_path := "/tmp/libero-luks.key123456", write_ok := true,
    swap_input := some "2048", ensure_dir_ok := fun _ => true,
    mounted_already := false, mount_ok := fun _ _ => true, cache_ok := true }

/-! ### Claim C2 -/

/-- Claim C2: for diskSizeMb=20000, UEFI, no LVM, swapSizeMb=2048 the plan
is exactly efi(+512M), boot(+512M), swap(+2048M), root(-8M, i.e. the rest
of the disk up to the 8 MB trailer), numbered 1–4 in that order. -/
theorem buildPlan_example_20000_uefi :
    buildPlan BootMode.uefi false 2048 20000 =
      some [{ role := "efi", label := LABEL_EFI, gpt_type := some GPT_TYPE_EFI,
              mbr_type := none, part_number := 1, size_spec := "+512M",
              device := "" },
            { role := "boot", label := LABEL_BOOT,
              gpt_type := some GPT_TYPE_LINUX, mbr_type := some MBR_TYPE_LINUX,
              part_number := 2, size_spec := "+512M", device := "" },
            { role := "swap", label := LABEL_SWAP,
              gpt_type := some GPT_TYPE_SWAP, mbr_type := some MBR_TYPE_SWAP,
              part_number := 3, size_spec := "+2048M", device := "" },
            { role := "root", label := LABEL_ROOT,
              gpt_type := some GPT_TYPE_LINUX, mbr_type := some MBR_TYPE_LINUX,
              part_number := 4, size_spec := "-8M", device := "" }] := by
  rfl

/-! ### Claim C1 -/

/-- Claim C1 counterexample: in legacy BIOS mode the plan construction of
`apply_partitioning` emits no "boot" spec at all (the boot spec is only
added inside the UEFI branch, `disk.c` lines 721–735), so the claim that
a boot spec is present in every mode fails at
(legacy, useLvm=false, swapSizeMb=0, diskSizeMb=20000). -/
theorem buildPlan_legacy_no_boot :
    buildPlan BootMode.legacy false 0 20000 =
      some [{ role := "root", label := LABEL_ROOT,
              gpt_type := some GPT_TYPE_LINUX, mbr_type := some MBR_TYPE_LINUX,
              part_number := 1, size_spec := "-8M", device := "" }] ∧
    ∀ spec ∈ (buildPlan BootMode.legacy false 0 20000).getD [],
      spec.role ≠ "boot" := by
  refine ⟨rfl, ?_⟩
  decide

/-- Claim C1 (amended): whenever the plan construction succeeds, the specs
are ordered [efi, boot | only in UEFI mode] then [swap if swap-as-partition
applies] then [root], with partition numbers a contiguous sequence starting
at 1 in emission order; in legacy mode neither an efi nor a boot spec is
emitted. -/
theorem buildPlan_layout (bm : BootMode) (lvm : Bool) (swap disk : Int)
    (plan : List PartitionSpec)
    (h : buildPlan bm lvm swap disk = some plan) :
    plan.map PartitionSpec.role =
      (if bm = BootMode.uefi then ["efi", "boot"] else []) ++
        (if lvm = false ∧ 0 < swap then ["swap"] else []) ++ ["root"] ∧
    plan.map PartitionSpec.part_number =
      (List.range plan.length).map (fun i => (i : Int) + 1) := by
  have hgl : (BootMode.legacy == BootMode.uefi) = false := rfl
  have hgu : (BootMode.uefi == BootMode.uefi) = true := rfl
  have hneg : ∀ (l : Bool) (s : Int), (!l && decide (0 < s)) = false →
      ¬(l = false ∧ 0 < s) := by
    rintro l s hc ⟨rfl, h2⟩
    simp [h2] at hc
  have hpos : ∀ (l : Bool) (s : Int), (!l && decide (0 < s)) = true →
      l = false ∧ 0 < s := by
    intro l s hc
    simpa [Bool.and_eq_true, Bool.not_eq_true', decide_eq_true_eq] using hc
  cases bm <;> cases hc : (!lvm && decide (0 < swap)) <;>
      simp [buildPlan, plan_add_partition, MAX_PARTITION_SPECS, hc, hgl, hgu] at h
  · obtain ⟨-, rfl⟩ := h
    refine ⟨?_, by rfl⟩
    rw [if_neg (hneg _ _ hc)]
    simp
  · obtain ⟨hl, hs⟩ := hpos _ _ hc
    obtain ⟨-, rfl⟩ := h
    refine ⟨?_, by rfl⟩
    simp [hl, hs]
  · obtain ⟨-, rfl⟩ := h
    refine ⟨?_, by rfl⟩
    rw [if_neg (hneg _ _ hc)]
    simp
  · obtain ⟨hl, hs⟩ := hpos _ _ hc
    obtain ⟨-, rfl⟩ := h
    refine ⟨?_, by rfl⟩
    simp [hl, hs]

/-- Witness for `buildPlan_layout` at the concrete UEFI example input. -/
theorem buildPlan_layout_witness :
    ([{ role := "efi", label := LABEL_EFI, gpt_type := some GPT_TYPE_EFI,
        mbr_type := none, part_number := 1, size_spec := "+512M",
        device := "" },
      { role := "boot", label := LABEL_BOOT, gpt_type := some GPT_TYPE_LINUX,
        mbr_type := some MBR_TYPE_LINUX, part_number := 2,
        size_spec := "+512M", device := "" },
      { role := "swap", label := LABEL_SWAP, gpt_type := some GPT_TYPE_SWAP,
        mbr_type := some MBR_TYPE_SWAP, part_number := 3,
        size_spec := "+2048M", device := "" },
      { role := "root", label := LABEL_ROOT, gpt_type := some GPT_TYPE_LINUX,
        mbr_type := some MBR_TYPE_LINUX, part_number := 4, size_spec := "-8M",
        device := "" }] : List PartitionSpec).map PartitionSpec.role =
      (if BootMode.uefi = BootMode.uefi then ["efi", "boot"] else []) ++
        (if false = false ∧ (0 : Int) < 2048 then ["swap"] else []) ++
        ["root"] :=
  (buildPlan_layout BootMode.uefi false 2048 20000 _ (by rfl)).1

/-! ### Claim C3 -/

/-- The plan construction fails exactly on the insufficient-space
condition: `rootEnd = diskSizeMb - 8` at most `reservedOverhead + 128`,
with `reservedOverhead = 1 + 512·[UEFI] + 512 + swapSizeMb·[swap as
partition]`. -/
theorem buildPlan_eq_none_iff (bm : BootMode) (lvm : Bool) (swap disk : Int) :
    buildPlan bm lvm swap disk = none ↔
      disk - 8 ≤ 1 + (if bm = BootMode.uefi then (512 : Int) else 0) + 512 +
        (if lvm = false ∧ 0 < swap then swap else 0) + 128 := by
  have hgl : (BootMode.legacy == BootMode.uefi) = false := rfl
  have hgu : (BootMode.uefi == BootMode.uefi) = true := rfl
  have hneg : ∀ (l : Bool) (s : Int), (!l && decide (0 < s)) = false →
      ¬(l = false ∧ 0 < s) := by
    rintro l s hc ⟨rfl, h2⟩
    simp [h2] at hc
  have hpos : ∀ (l : Bool) (s : Int), (!l && decide (0 < s)) = true →
      l = false ∧ 0 < s := by
    intro l s hc
    simpa [Bool.and_eq_true, Bool.not_eq_true', decide_eq_true_eq] using hc
  cases bm <;> cases hc : (!lvm && decide (0 < swap)) <;>
      simp [buildPlan, plan_add_partition, MAX_PARTITION_SPECS, hc, hgl, hgu] <;>
      first
        | (rw [if_neg (hneg _ _ hc)]
           constructor <;> intro h <;> omega)
        | rw [if_pos (hpos _ _ hc)]

/-- Claim C3: partition planning fails (producing no plan) exactly when
`diskSizeMb - 8 ≤ reservedOverhead + 128`, and on any such disk size
`apply_partitioning` returns failure having run no external command after
the check — the only command possibly run is the `wipefs`, which precedes
the check. -/
theorem apply_partitioning_insufficient (st : InstallerState) (w : World)
    (htd : ¬ st.target_disk = "") (hsz : 0 < st.disk_size_mb) :
    (buildPlan st.boot_mode st.use_lvm st.swap_size_mb st.disk_size_mb = none ↔
      st.disk_size_mb - 8 ≤
        1 + (if st.boot_mode = BootMode.uefi then (512 : Int) else 0) + 512 +
          (if st.use_lvm = false ∧ 0 < st.swap_size_mb then st.swap_size_mb else 0) +
          128) ∧
    (buildPlan st.boot_mode st.use_lvm st.swap_size_mb st.disk_size_mb = none →
      (apply_partitioning st w).rc = -1 ∧
      ∀ c, Event.runCmd c ∈ (apply_partitioning st w).events →
        c = "/usr/sbin/wipefs -a " ++ st.target_disk) := by
  refine ⟨buildPlan_eq_none_iff _ _ _ _, fun hnone => ?_⟩
  simp only [apply_partitioning, resolve_disk_size, if_neg htd,
    if_neg (not_le.mpr hsz), hnone]
  split
  · refine ⟨rfl, ?_⟩
    intro c hc
    simp at hc
  · split
    · refine ⟨rfl, ?_⟩
      intro c hc
      simp at hc
    · split
      · refine ⟨rfl, ?_⟩
        intro c hc
        simp at hc
        exact hc
      · refine ⟨rfl, ?_⟩
        intro c hc
        simp at hc
        exact hc

/-- Witness for `apply_partitioning_insufficient`: a 500 MB disk with a
2048 MB swap request and UEFI mode is below the minimum, and the run
fails. -/
theorem apply_partitioning_insufficient_witness :
    (apply_partitioning { stFresh with disk_size_mb := 500 } wAllOk).rc = -1 :=
  ((apply_partitioning_insufficient { stFresh with disk_size_mb := 500 } wAllOk
      (by decide) (by decide)).2 (by rfl)).1

/-! ### String helper lemmas -/

theorem length_zero_eq_empty (s : String) : s.length = 0 → s = "" := by
  intro h
  cases s with
  | mk data =>
      cases data with
      | nil => rfl
      | cons c cs => simp [String.length] at h

theorem append_ne_empty_left (a b : String) (ha : a ≠ "") : (a ++ b) ≠ "" := by
  intro h
  have hl := congrArg String.length h
  rw [String.length_append] at hl
  simp at hl
  exact ha (length_zero_eq_empty a hl.1)

theorem append_ne_empty_right (a b : String) (hb : b ≠ "") : (a ++ b) ≠ "" := by
  intro h
  have hl := congrArg String.length h
  rw [String.length_append] at hl
  simp at hl
  exact hb (length_zero_eq_empty b hl.2)

/-! ### Claim C5 -/

/-- Claim C5: with encryption and LVM both disabled, the resolved root
device path after both layering steps equals the root partition path
exactly, and both steps succeed. -/
theorem layering_passthrough (st : InstallerState) (w : World)
    (hluks : st.use_luks = false) (hlvm : st.use_lvm = false) :
    (handle_encryption st w).rc = 0 ∧
    (handle_lvm (handle_encryption st w).state w).rc = 0 ∧
    (handle_lvm (handle_encryption st w).state w).state.root_mapper =
      st.root_partition := by
  by_cases hr : st.root_partition = "" <;>
    simp [handle_encryption, handle_lvm, hluks, hlvm, hr]

/-- Witness for `layering_passthrough` at the concrete mounted state. -/
theorem layering_passthrough_witness :
    (handle_lvm (handle_encryption stMount wAllOk).state wAllOk).state.root_mapper =
      stMount.root_partition :=
  (layering_passthrough stMount wAllOk rfl rfl).2.2

/-! ### Claim C7 -/

/-- Claim C7: with LVM enabled and a positive swap size, a successful
volume-manager step runs exactly `pvcreate`, `vgcreate`, the swap
`lvcreate` sized to exactly swapSizeMb megabytes, and then the root
`lvcreate` claiming 100% of the remaining free space — the swap LV
strictly before the root LV. -/
theorem handle_lvm_swap_before_root (st : InstallerState) (w : World)
    (hlvm : st.use_lvm = true) (hswap : 0 < st.swap_size_mb)
    (hrc : (handle_lvm st w).rc = 0) :
    (handle_lvm st w).events =
      [.runCmd ("pvcreate " ++
          (if st.root_mapper ≠ "" then st.root_mapper else st.root_partition)),
       .runCmd ("vgcreate " ++ st.vg_name ++ " " ++
          (if st.root_mapper ≠ "" then st.root_mapper else st.root_partition)),
       .runCmd ("lvcreate -n swap -L " ++ toString st.swap_size_mb ++ "M " ++
          st.vg_name),
       .runCmd ("lvcreate -n root -l 100%FREE " ++ st.vg_name)] ∧
    (handle_lvm st w).state.swap_mapper = "/dev/" ++ st.vg_name ++ "/swap" ∧
    (handle_lvm st w).state.root_mapper = "/dev/" ++ st.vg_name ++ "/root" := by
  simp only [handle_lvm, hlvm, Bool.not_true, if_pos hswap] at hrc ⊢
  repeat' split at hrc
  all_goals simp_all

/-- A state with LVM enabled on the encrypted-free mounted fixture. -/
def stLvm : InstallerState := { stMount with use_lvm := true }

/-- Witness for `handle_lvm_swap_before_root` with every command
succeeding. -/
theorem handle_lvm_swap_before_root_witness :
    (handle_lvm stLvm wAllOk).events =
      [.runCmd ("pvcreate " ++
          (if stLvm.root_mapper ≠ "" then stLvm.root_mapper else stLvm.root_partition)),
       .runCmd ("vgcreate " ++ stLvm.vg_name ++ " " ++
          (if stLvm.root_mapper ≠ "" then stLvm.root_mapper else stLvm.root_partition)),
       .runCmd ("lvcreate -n swap -L " ++ toString stLvm.swap_size_mb ++ "M " ++
          stLvm.vg_name),
       .runCmd ("lvcreate -n root -l 100%FREE " ++ stLvm.vg_name)] ∧
    (handle_lvm stLvm wAllOk).state.swap_mapper =
      "/dev/" ++ stLvm.vg_name ++ "/swap" ∧
    (handle_lvm stLvm wAllOk).state.root_mapper =
      "/dev/" ++ stLvm.vg_name ++ "/root" :=
  handle_lvm_swap_before_root stLvm wAllOk rfl (by decide) (by rfl)

/-! ### Claim C9 -/

/-- On encryption success the root mapper is either the raw root
partition (LUKS off) or the fixed mapper path (LUKS on). -/
theorem handle_encryption_rc_zero_mapper (st : InstallerState) (w : World)
    (h : (handle_encryption st w).rc = 0) :
    (handle_encryption st w).state.root_mapper = st.root_partition ∨
    (handle_encryption st w).state.root_mapper = "/dev/mapper/" ++ st.luks_name := by
  simp only [handle_encryption] at h ⊢
  repeat' split at h
  all_goals simp_all

/-- On volume-manager success the root mapper is either passed through
(LVM off) or the root logical volume path (LVM on). -/
theorem handle_lvm_rc_zero_mapper (st : InstallerState) (w : World)
    (h : (handle_lvm st w).rc = 0) :
    (handle_lvm st w).state.root_mapper =
      (if st.root_mapper ≠ "" then st.root_mapper else st.root_partition) ∨
    (handle_lvm st w).state.root_mapper = "/dev/" ++ st.vg_name ++ "/root" := by
  simp only [handle_lvm] at h ⊢
  repeat' split at h
  all_goals repeat' split
  all_goals simp_all

/-- Claim C9: whenever the encryption step and then the volume-manager
step both succeed and the root partition path is non-empty, the resolved
root mapper path is non-empty — so the root-format step always has a
concrete device. -/
theorem root_mapper_nonempty (st : InstallerState) (w : World)
    (hroot : st.root_partition ≠ "")
    (henc : (handle_encryption st w).rc = 0)
    (hlvm : (handle_lvm (handle_encryption st w).state w).rc = 0) :
    (handle_lvm (handle_encryption st w).state w).state.root_mapper ≠ "" := by
  have h1 := handle_encryption_rc_zero_mapper st w henc
  have h2 := handle_lvm_rc_zero_mapper (handle_encryption st w).state w hlvm
  have hm : (handle_encryption st w).state.root_mapper ≠ "" := by
    rcases h1 with h | h <;> rw [h]
    · exact hroot
    · exact append_ne_empty_left _ _ (by decide)
  rcases h2 with h | h <;> rw [h]
  · rw [if_pos hm]
    exact hm
  · exact append_ne_empty_right _ _ (by decide)

/-- A state with both LUKS and LVM enabled, before layering. -/
def stBoth : InstallerState :=
  { stMount with use_luks := true, use_lvm := true, root_mapper := "" }

/-- Witness for `root_mapper_nonempty` with both layers enabled and all
commands succeeding. -/
theorem root_mapper_nonempty_witness :
    (handle_lvm (handle_encryption stBoth wAllOk).state wAllOk).state.root_mapper ≠ "" :=
  root_mapper_nonempty stBoth wAllOk (by decide) (by rfl) (by rfl)

/-! ### Claim C6 -/

/-- An oracle whose two passphrase prompts return different entries. -/
def wMismatch : World := { wAllOk with pass1 := some "hunter2", pass2 := some "hunter3" }

/-- The mounted fixture with LUKS encryption enabled. -/
def stLuks : InstallerState := { stMount with use_luks := true }

/-- Claim C6 at the failing input: when the two passphrase entries differ,
`handle_encryption` fails as a user error without creating any key file or
mapping, but the trace contains no buffer-zeroing action — the
`pass1`/`pass2` stack buffers are returned un-zeroed on the mismatch path
(`disk.c` lines 584–587), unlike the success and write-failure paths. -/
theorem encryption_mismatch_skips_zeroize :
    (handle_encryption stLuks wMismatch).rc = -1 ∧
    (handle_encryption stLuks wMismatch).events =
      [.uiMessage "Passphrase Mismatch"] ∧
    (∀ n, Event.zeroBuffer n ∉ (handle_encryption stLuks wMismatch).events) ∧
    (∀ p, Event.createKeyFile p ∉ (handle_encryption stLuks wMismatch).events) := by
  have he : (handle_encryption stLuks wMismatch).events =
      [.uiMessage "Passphrase Mismatch"] := rfl
  refine ⟨rfl, he, ?_, ?_⟩ <;> intro x hx <;> rw [he] at hx <;> simp at hx

/-! ### Claim C10 -/

/-- Claim C10: a successful return from the swap-size configuration step
always leaves a non-negative swap size — negative parses are clamped to
zero. -/
theorem configure_swap_nonneg (st : InstallerState) (w : World)
    (h : (configure_swap st w).rc = 0) :
    0 ≤ (configure_swap st w).state.swap_size_mb := by
  unfold configure_swap at h ⊢
  cases hw : w.swap_input with
  | none => rw [hw] at h; simp at h
  | some s =>
      show 0 ≤ (if strtol s < 0 then 0 else strtol s)
      split <;> omega

/-- An oracle whose swap prompt returns a negative size. -/
def wNegSwap : World := { wAllOk with swap_input := some "-500" }

/-- Witness for `configure_swap_nonneg` on the input "-500". -/
theorem configure_swap_nonneg_witness :
    0 ≤ (configure_swap stFresh wNegSwap).state.swap_size_mb :=
  configure_swap_nonneg stFresh wNegSwap rfl

/-! ### Claim C4 -/

/-- Claim C4 counterexample: on a fully valid UEFI state (boot and EFI
partitions recorded) the mount step succeeds having mounted only the root
device at the install root — no mount of `/boot` or `/boot/efi` ever
appears in the trace, so the claimed root → `/boot` → `/boot/efi` mount
sequence does not happen. -/
theorem disk_mount_only_root :
    (disk_mount_targets stMount wAllOk).rc = 0 ∧
    (disk_mount_targets stMount wAllOk).events =
      [.ensureDir "/mnt/gentoo", .ensureDir "/mnt/gentoo",
       .mountFs "/dev/sda4" "/mnt/gentoo", .migrateCache, .uiMessage "Mount"] ∧
    ∀ d mp, Event.mountFs d mp ∈ (disk_mount_targets stMount wAllOk).events →
      d = "/dev/sda4" ∧ mp = "/mnt/gentoo" := by
  have he : (disk_mount_targets stMount wAllOk).events =
      [.ensureDir "/mnt/gentoo", .ensureDir "/mnt/gentoo",
       .mountFs "/dev/sda4" "/mnt/gentoo", .migrateCache, .uiMessage "Mount"] := rfl
  refine ⟨rfl, he, ?_⟩
  intro d mp h
  rw [he] at h
  simp at h
  exact h

/-- Claim C4 (amended): mounting fails — it does not silently skip — when
the recorded root partition path is empty, performing no mount at all; and
a successful fresh mount performs exactly one mount, of the resolved root
device at the install root, with the install-root directory created
immediately before the mount call.  `/boot` and `/boot/efi` are not
mounted by this step. -/
theorem disk_mount_targets_spec (st : InstallerState) (w : World) :
    (st.target_disk ≠ "" → st.root_partition = "" →
      (disk_mount_targets st w).rc = -1 ∧
      ∀ d mp, Event.mountFs d mp ∉ (disk_mount_targets st w).events) ∧
    ((disk_mount_targets st w).rc = 0 → w.mounted_already = false →
      (disk_mount_targets st w).events =
        [.ensureDir st.install_root, .ensureDir st.install_root,
         .mountFs (if st.root_mapper ≠ "" then st.root_mapper else st.root_partition)
           st.install_root] ++
        (if w.cache_ok then [Event.migrateCache] else []) ++
        [.uiMessage "Mount"]) := by
  constructor
  · intro htd hrp
    constructor
    · simp [disk_mount_targets, if_neg htd, if_pos hrp]
    · intro d mp h
      simp [disk_mount_targets, if_neg htd, if_pos hrp] at h
  · intro h0 hma
    simp only [disk_mount_targets, mount_fs, hma] at h0 ⊢
    repeat' split at h0
    all_goals simp_all

/-- Witness for `disk_mount_targets_spec`: the failure half on a state
with no recorded root partition, and the success half on the mounted
fixture. -/
theorem disk_mount_targets_spec_witness :
    (disk_mount_targets { stMount with root_partition := "" } wAllOk).rc = -1 ∧
    (disk_mount_targets stMount wAllOk).events =
      [.ensureDir stMount.install_root, .ensureDir stMount.install_root,
       .mountFs (if stMount.root_mapper ≠ "" then stMount.root_mapper
                 else stMount.root_partition) stMount.install_root] ++
      (if wAllOk.cache_ok then [Event.migrateCache] else []) ++
      [.uiMessage "Mount"] :=
  ⟨((disk_mount_targets_spec { stMount with root_partition := "" } wAllOk).1
      (by decide) rfl).1,
   (disk_mount_targets_spec stMount wAllOk).2 rfl rfl⟩

/-! ### Claim C8 -/

theorem handle_encryption_preserves_dp (st : InstallerState) (w : World) :
    (handle_encryption st w).state.disk_prepared = st.disk_prepared := by
  simp only [handle_encryption]
  repeat' split
  all_goals rfl

theorem handle_lvm_preserves_dp (st : InstallerState) (w : World) :
    (handle_lvm st w).state.disk_prepared = st.disk_prepared := by
  simp only [handle_lvm]
  repeat' split
  all_goals rfl

theorem record_partition_preserves_dp (d : String) (st : InstallerState)
    (s : PartitionSpec) :
    (record_partition d st s).disk_prepared = st.disk_prepared := by
  simp only [record_partition]
  repeat' split
  all_goals rfl

theorem foldl_record_preserves_dp (d : String) (plan : List PartitionSpec)
    (st : InstallerState) :
    (plan.foldl (record_partition d) st).disk_prepared = st.disk_prepared := by
  induction plan generalizing st with
  | nil => rfl
  | cons s rest ih =>
      rw [List.foldl_cons, ih, record_partition_preserves_dp]

theorem setup_swap_dp (st : InstallerState) (w : World) (ev : List Event) :
    ((setup_swap st w ev).rc = 0 →
      (setup_swap st w ev).state.disk_prepared = false) ∧
    ((setup_swap st w ev).rc ≠ 0 →
      (setup_swap st w ev).state.disk_prepared = st.disk_prepared) := by
  simp only [setup_swap]
  repeat' split
  all_goals simp_all

theorem format_stage_dp (st : InstallerState) (w : World) :
    ((format_stage st w).rc = 0 →
      (format_stage st w).state.disk_prepared = false) ∧
    ((format_stage st w).rc ≠ 0 →
      (format_stage st w).state.disk_prepared = st.disk_prepared) := by
  simp only [format_stage]
  repeat' split
  all_goals first
    | exact ⟨fun h => (setup_swap_dp _ _ _).1 h,
        fun h => by
          rw [(setup_swap_dp _ _ _).2 h, handle_lvm_preserves_dp,
            handle_encryption_preserves_dp]⟩
    | simp_all [handle_encryption_preserves_dp, handle_lvm_preserves_dp]

theorem run_partition_plan_dp (st : InstallerState) (w : World)
    (plan : List PartitionSpec) :
    ((run_partition_plan st w plan).rc = 0 →
      (run_partition_plan st w plan).state.disk_prepared = false) ∧
    ((run_partition_plan st w plan).rc ≠ 0 →
      (run_partition_plan st w plan).state.disk_prepared = st.disk_prepared) := by
  simp only [run_partition_plan]
  repeat' split
  all_goals first
    | exact ⟨fun h => (format_stage_dp _ _).1 h,
        fun h => by rw [(format_stage_dp _ _).2 h, foldl_record_preserves_dp]⟩
    | simp_all [foldl_record_preserves_dp]

theorem resolve_disk_size_dp (st : InstallerState) (w : World)
    (st2 : InstallerState) (h : resolve_disk_size st w = some st2) :
    st2.disk_prepared = st.disk_prepared := by
  simp only [resolve_disk_size] at h
  split at h
  · split at h
    · simp at h
    · obtain ⟨rfl⟩ := h
      rfl
  · obtain ⟨rfl⟩ := h
    rfl

theorem apply_partitioning_dp (st : InstallerState) (w : World) :
    ((apply_partitioning st w).rc = 0 →
      (apply_partitioning st w).state.disk_prepared = false) ∧
    ((apply_partitioning st w).rc ≠ 0 →
      (apply_partitioning st w).state.disk_prepared = st.disk_prepared) := by
  simp only [apply_partitioning]
  split
  · simp
  · cases hre : resolve_disk_size st w with
    | none => simp [hre]
    | some st2 =>
        have hdp := resolve_disk_size_dp st w st2 hre
        simp only [hre]
        repeat' split
        all_goals first
          | exact ⟨fun h => (run_partition_plan_dp _ _ _).1 h,
              fun h => by
                rw [(run_partition_plan_dp _ _ _).2 h]
                simp [hdp]⟩
          | simp_all

theorem disk_mount_dp (st : InstallerState) (w : World) :
    ((disk_mount_targets st w).rc = 0 →
      (disk_mount_targets st w).state.disk_prepared = true) ∧
    ((disk_mount_targets st w).rc ≠ 0 →
      (disk_mount_targets st w).state.disk_prepared = st.disk_prepared) := by
  simp only [disk_mount_targets]
  repeat' split
  all_goals simp_all

/-- Claim C8: a successful partition-and-format run always leaves
`disk_prepared = false` (a failed run leaves it unchanged), and the flag
becomes true only through the mount operation — any successful mount
(fresh or already-mounted) sets it true, while a failed mount leaves it
unchanged. -/
theorem disk_prepared_lifecycle (st : InstallerState) (w : World) :
    ((apply_partitioning st w).rc = 0 →
      (apply_partitioning st w).state.disk_prepared = false) ∧
    ((apply_partitioning st w).rc ≠ 0 →
      (apply_partitioning st w).state.disk_prepared = st.disk_prepared) ∧
    ((disk_mount_targets st w).rc = 0 →
      (disk_mount_targets st w).state.disk_prepared = true) ∧
    ((disk_mount_targets st w).rc ≠ 0 →
      (disk_mount_targets st w).state.disk_prepared = st.disk_prepared) :=
  ⟨(apply_partitioning_dp st w).1, (apply_partitioning_dp st w).2,
   (disk_mount_dp st w).1, (disk_mount_dp st w).2⟩

/-- Witness for `disk_prepared_lifecycle`: a full successful partitioning
run on the fresh fixture ends unprepared; a successful mount on the
mounted fixture ends prepared. -/
theorem disk_prepared_lifecycle_witness :
    (apply_partitioning stFresh wAllOk).state.disk_prepared = false ∧
    (disk_mount_targets stMount wAllOk).state.disk_prepared = true :=
  ⟨(disk_prepared_lifecycle stFresh wAllOk).1 rfl,
   (disk_prepared_lifecycle stMount wAllOk).2.2.1 rfl⟩

end LGLI
